import Mathlib

/-!
Verification of the email-masking ETL pipeline.

Shallow embedding of `src/scripts/email_masking_pipeline.py`.  Python
strings are modelled as `List Char`; the pure masking functions, the
flatten step and the filesystem skeleton of the pipeline are translated
directly from the source.
-/

/-- Seven literal asterisk characters, the fixed masked local part
(`'*' * 7`, line 39 of `email_masking_pipeline.py`). -/
def sevenStars : List Char := ['*', '*', '*', '*', '*', '*', '*']

/-- Everything after the first `'@'` of a character list: the `domain`
component of Python's `email.split('@', 1)` (line 36). -/
def domainPart (email : List Char) : List Char :=
  (email.dropWhile (· != '@')).tail

/-- The `local_part` component of Python's `email.split('@', 1)`
(line 36); computed by the source and then discarded. -/
def localPart (email : List Char) : List Char :=
  email.takeWhile (· != '@')

/-- Python `mask_email` (lines 19-41): return the input unchanged when it is
empty or has no `'@'`, otherwise seven asterisks, `'@'`, and the part of
the input after its first `'@'`. -/
def mask_email (email : List Char) : List Char :=
  if email = [] ∨ '@' ∉ email then email
  else sevenStars ++ '@' :: domainPart email

/-- DuckDB splitting of a character list on a separator character, as
performed by `SPLIT_PART`: the list of fields between occurrences of the
separator (always at least one field). -/
def split_on_char (sep : Char) : List Char → List (List Char)
  | [] => [[]]
  | c :: cs =>
    let rest := split_on_char sep cs
    if c = sep then [] :: rest
    else (c :: rest.headD []) :: rest.tail

/-- DuckDB `SPLIT_PART(email, '@', 2)` (line 154): the second field of
the split, or the empty string when there are fewer than two fields. -/
def split_part_at_2 (email : List Char) : List Char :=
  (split_on_char '@' email).getD 1 []

/-- The engine-native masking expression
`CONCAT('*******@', SPLIT_PART(Email, '@', 2))` used to build the
`customers_secure_sql` table (line 154). -/
def sql_mask (email : List Char) : List Char :=
  sevenStars ++ '@' :: split_part_at_2 email

-- Sanity checks on concrete inputs.
example : mask_email "carlos91@gmail.com".toList = "*******@gmail.com".toList := by decide
example : mask_email "a@b@c".toList = "*******@b@c".toList := by decide
example : sql_mask "a@b@c".toList = "*******@b".toList := by decide
example : sql_mask "nodomain".toList = "*******@".toList := by decide
example : mask_email "nodomain".toList = "nodomain".toList := by decide

/-- A customer object of the input document (§ fields read at
lines 80-85 of `email_masking_pipeline.py`). -/
structure Customer where
  name : String
  email : String
  phone : String
  birth : String
  placeOfBirth : String
  role : String
deriving DecidableEq, Repr

/-- One element of the `CompanyInfo` sequence of the input document
(fields read at lines 71-72). -/
structure Company where
  name : String
  customers : List Customer
deriving DecidableEq, Repr

/-- The input JSON document: `CompanyID` and the `CompanyInfo`
sequence (lines 69-70). -/
structure InputDoc where
  companyID : Nat
  companyInfo : List Company
deriving DecidableEq, Repr

/-- One flattened customer record as appended at lines 77-86. -/
structure FlatRecord where
  companyID : Nat
  companyName : String
  customerName : String
  email : String
  phone : String
  dateOfBirth : String
  placeOfBirth : String
  role : String
deriving DecidableEq, Repr

/-- The flattened dictionary built for one customer (lines 77-86). -/
def flat_record (companyID : Nat) (companyName : String) (c : Customer) :
    FlatRecord :=
  { companyID := companyID
    companyName := companyName
    customerName := c.name
    email := c.email
    phone := c.phone
    dateOfBirth := c.birth
    placeOfBirth := c.placeOfBirth
    role := c.role }

/-- The pure core of the flatten step (lines 69-86):
reading element 0 of the `CompanyInfo` field followed by the loop over
the `Customers` field of that element.  Indexing an empty `CompanyInfo` raises in
Python, hence `Option`. -/
def flatten_customers (doc : InputDoc) : Option (List FlatRecord) :=
  match doc.companyInfo with
  | [] => none
  | ci :: _ => some (ci.customers.map (flat_record doc.companyID ci.name))

/-- One row of the `customers_secure` / `customers_secure_sql` tables
(lines 131-144 and 147-160): the flattened fields plus the original and
a masked email. -/
structure SecureRow where
  companyID : Nat
  companyName : String
  customerName : String
  email_Original : String
  email_Masked : String
  phone : String
  dateOfBirth : String
  placeOfBirth : String
  role : String
deriving DecidableEq, Repr

/-- A row of `customers_secure` (lines 131-144): `Email_Original` is the
unmasked email and `Email_Masked` comes from the Python `mask_email`
function (line 128). -/
def customers_secure_row (r : FlatRecord) : SecureRow :=
  { companyID := r.companyID
    companyName := r.companyName
    customerName := r.customerName
    email_Original := r.email
    email_Masked := (mask_email r.email.toList).asString
    phone := r.phone
    dateOfBirth := r.dateOfBirth
    placeOfBirth := r.placeOfBirth
    role := r.role }

/-- A row of `customers_secure_sql` (lines 147-160): `Email_Original` is
the unmasked email and `Email_Masked` comes from the engine-native
expression `CONCAT('*******@', SPLIT_PART(Email, '@', 2))` (line 154). -/
def customers_secure_sql_row (r : FlatRecord) : SecureRow :=
  { companyID := r.companyID
    companyName := r.companyName
    customerName := r.customerName
    email_Original := r.email
    email_Masked := (sql_mask r.email.toList).asString
    phone := r.phone
    dateOfBirth := r.dateOfBirth
    placeOfBirth := r.placeOfBirth
    role := r.role }

/-- The column list of the `customers_secure_sql` table, in the order of
its `SELECT` list (lines 149-158). -/
def customers_secure_sql_columns : List String :=
  ["CompanyID", "CompanyName", "CustomerName", "Email_Original",
   "Email_Masked", "Phone", "DateOfBirth", "PlaceOfBirth", "Role"]

/-- Columns of the exported CSV: `COPY customers_secure_sql TO csv`
(lines 190-194) writes every column of `customers_secure_sql`. -/
def csv_columns : List String := customers_secure_sql_columns

/-- Columns of the exported Parquet file: `COPY customers_secure_sql TO
parquet` (lines 199-203) writes every column of
`customers_secure_sql`. -/
def parquet_columns : List String := customers_secure_sql_columns

/-- Columns of the `customers_secure` table of the persistent database
file, created as `SELECT * FROM read_parquet(...)` over the Parquet
export (lines 209-212). -/
def duckdb_table_columns : List String := parquet_columns

/-- The two error classes the pipeline can abort with: `FileNotFoundError`
from `open` (line 65, handled at lines 271-273) and any other exception
(handled at lines 274-276), e.g. the `IndexError` of `CompanyInfo[0]`
on an empty `CompanyInfo`. -/
inductive PipelineError where
  | fileNotFound : PipelineError
  | otherError : PipelineError
deriving DecidableEq, Repr

/-- Filesystem effects of one run of
`flatten_and_transform_customer_data`: directories created, output files
written, and the error the run aborted with, if any. -/
structure RunOutcome where
  createdDirs : List String
  writtenFiles : List String
  error : Option PipelineError
deriving DecidableEq, Repr

/-- The I/O skeleton of `flatten_and_transform_customer_data`
(lines 44-260), over a filesystem modelled as an association list from
paths to parsed input documents.  In source order: the output directory
is created (line 53), the input file is opened and read (line 65) —
aborting with `FileNotFoundError` when the path does not resolve — the
data is flattened (lines 69-86, aborting when `CompanyInfo` is empty),
and only then are the CSV (line 190), Parquet (line 199) and database
(lines 207-213) files written. -/
def flatten_and_transform_customer_data
    (fs : List (String × InputDoc)) (json_file_path : String)
    (output_dir : String) : RunOutcome :=
  let dirs := [output_dir]
  match fs.lookup json_file_path with
  | none => { createdDirs := dirs, writtenFiles := [], error := some .fileNotFound }
  | some doc =>
    match flatten_customers doc with
    | none => { createdDirs := dirs, writtenFiles := [], error := some .otherError }
    | some _ =>
      { createdDirs := dirs
        writtenFiles :=
          [output_dir ++ "/customers_secure.csv",
           output_dir ++ "/customers_secure.parquet",
           output_dir ++ "/customers.duckdb"]
        error := none }

/-! ## Helper lemmas -/

theorem mask_email_of_mem {e : List Char} (h : '@' ∈ e) :
    mask_email e = sevenStars ++ '@' :: domainPart e := by
  have hne : e ≠ [] := by rintro rfl; cases h
  simp [mask_email, h, hne]

theorem mask_email_of_not_mem {e : List Char} (h : '@' ∉ e) :
    mask_email e = e := by
  simp [mask_email, h]

theorem domainPart_nil : domainPart [] = [] := rfl

theorem domainPart_cons_at (cs : List Char) : domainPart ('@' :: cs) = cs := rfl

theorem domainPart_cons_ne {c : Char} (cs : List Char) (h : c ≠ '@') :
    domainPart (c :: cs) = domainPart cs := by
  simp [domainPart, List.dropWhile_cons, h]

theorem domainPart_stars_append (d : List Char) :
    domainPart (sevenStars ++ '@' :: d) = d := rfl

theorem length_mask_email_of_mem {e : List Char} (h : '@' ∈ e) :
    (mask_email e).length = 8 + (domainPart e).length := by
  rw [mask_email_of_mem h]
  simp [sevenStars]
  omega

theorem split_on_char_ne_nil (sep : Char) (e : List Char) :
    split_on_char sep e ≠ [] := by
  cases e with
  | nil => simp [split_on_char]
  | cons c cs =>
    by_cases h : c = sep <;> simp [split_on_char, h]

theorem split_on_char_of_not_mem {sep : Char} {e : List Char} (h : sep ∉ e) :
    split_on_char sep e = [e] := by
  induction e with
  | nil => rfl
  | cons c cs ih =>
    have hc : c ≠ sep := fun hc => h (hc ▸ List.mem_cons_self c cs)
    have hcs : sep ∉ cs := fun hm => h (List.mem_cons_of_mem c hm)
    simp [split_on_char, hc, ih hcs]

theorem split_part_at_2_eq_domainPart {e : List Char} (h : e.count '@' = 1) :
    split_part_at_2 e = domainPart e := by
  induction e with
  | nil => simp at h
  | cons c cs ih =>
    by_cases hc : c = '@'
    · subst hc
      have hcs : '@' ∉ cs := by
        apply List.count_eq_zero.mp
        simp [List.count_cons] at h
        omega
      rw [domainPart_cons_at]
      simp [split_part_at_2, split_on_char, split_on_char_of_not_mem hcs]
    · have hcs : cs.count '@' = 1 := by
        simp [List.count_cons, hc] at h
        omega
      rw [domainPart_cons_ne cs hc]
      rw [← ih hcs]
      obtain ⟨hd, tl, hsplit⟩ := List.exists_cons_of_ne_nil (split_on_char_ne_nil '@' cs)
      simp [split_part_at_2, split_on_char, hc, hsplit]

theorem count_domainPart_add_one {e : List Char} (h : '@' ∈ e) :
    (domainPart e).count '@' + 1 = e.count '@' := by
  induction e with
  | nil => cases h
  | cons c cs ih =>
    by_cases hc : c = '@'
    · subst hc
      simp [domainPart_cons_at, List.count_cons]
    · have hm : '@' ∈ cs := by
        cases h with
        | head => exact absurd rfl hc
        | tail _ hm => exact hm
      rw [domainPart_cons_ne cs hc, ih hm]
      simp [List.count_cons, hc]

/-! ## Claim theorems -/

/-- C2: for every string containing exactly one `'@'`, `mask_email`
returns seven asterisks, one `'@'`, and the original domain substring
(everything after the `'@'`) verbatim, and the result's length is `8`
plus the length of the domain. -/
theorem mask_email_single_at (e : List Char) (h : e.count '@' = 1) :
    mask_email e = sevenStars ++ '@' :: domainPart e ∧
      (mask_email e).length = 8 + (domainPart e).length := by
  have hmem : '@' ∈ e := List.count_pos_iff.mp (by omega)
  exact ⟨mask_email_of_mem hmem, length_mask_email_of_mem hmem⟩

theorem mask_email_single_at_witness :
    "carlos91@gmail.com".toList.count '@' = 1 ∧
      (mask_email "carlos91@gmail.com".toList =
          sevenStars ++ '@' :: domainPart "carlos91@gmail.com".toList ∧
        (mask_email "carlos91@gmail.com".toList).length =
          8 + (domainPart "carlos91@gmail.com".toList).length) :=
  ⟨by decide, mask_email_single_at "carlos91@gmail.com".toList (by decide)⟩

/-- C4: for every string that is empty or contains no `'@'`,
`mask_email` returns its input unchanged. -/
theorem mask_email_no_at (e : List Char) (h : e = [] ∨ '@' ∉ e) :
    mask_email e = e := by
  rw [mask_email, if_pos h]

theorem mask_email_no_at_witness :
    ("nodomain".toList = [] ∨ '@' ∉ "nodomain".toList) ∧
      mask_email "nodomain".toList = "nodomain".toList :=
  ⟨Or.inr (by decide), mask_email_no_at "nodomain".toList (Or.inr (by decide))⟩

/-- C5: for a string with two `'@'` characters, `mask_email` splits only
at the first `'@'` and keeps the rest, including the further `'@'`, as
the retained domain tail; in particular
`mask_email "a@b@c" = "*******@b@c"` (see the witness). -/
theorem mask_email_two_ats (e : List Char) (h : e.count '@' = 2) :
    mask_email e = sevenStars ++ '@' :: domainPart e ∧
      '@' ∈ domainPart e := by
  have hmem : '@' ∈ e := List.count_pos_iff.mp (by omega)
  have hcount := count_domainPart_add_one hmem
  refine ⟨mask_email_of_mem hmem, List.count_pos_iff.mp (by omega)⟩

theorem mask_email_two_ats_witness :
    "a@b@c".toList.count '@' = 2 ∧
      mask_email "a@b@c".toList = "*******@b@c".toList := by
  refine ⟨by decide, ?_⟩
  rw [(mask_email_two_ats "a@b@c".toList (by decide)).1]
  decide

/-- C6: masking is idempotent whenever the portion of the input after
its first `'@'` contains no further `'@'` (which also covers inputs
without any `'@'`, whose domain portion is empty):
`mask_email (mask_email e) = mask_email e`. -/
theorem mask_email_idem (e : List Char) (_h : '@' ∉ domainPart e) :
    mask_email (mask_email e) = mask_email e := by
  by_cases hm : '@' ∈ e
  · rw [mask_email_of_mem hm]
    have hmem : '@' ∈ sevenStars ++ '@' :: domainPart e := by simp
    rw [mask_email_of_mem hmem, domainPart_stars_append]
  · rw [mask_email_of_not_mem hm, mask_email_of_not_mem hm]

theorem mask_email_idem_witness :
    '@' ∉ domainPart "a@b.com".toList ∧
      mask_email (mask_email "a@b.com".toList) = mask_email "a@b.com".toList :=
  ⟨by decide, mask_email_idem "a@b.com".toList (by decide)⟩

/-- C9: the masked output reveals nothing about the local part: any two
inputs that both contain `'@'` and agree on everything after their
first `'@'` are masked to identical outputs. -/
theorem mask_email_hides_local (e₁ e₂ : List Char) (h₁ : '@' ∈ e₁)
    (h₂ : '@' ∈ e₂) (hd : domainPart e₁ = domainPart e₂) :
    mask_email e₁ = mask_email e₂ := by
  rw [mask_email_of_mem h₁, mask_email_of_mem h₂, hd]

theorem mask_email_hides_local_witness :
    '@' ∈ "alice@example.com".toList ∧ '@' ∈ "bob@example.com".toList ∧
      domainPart "alice@example.com".toList = domainPart "bob@example.com".toList ∧
      mask_email "alice@example.com".toList = mask_email "bob@example.com".toList :=
  ⟨by decide, by decide, by decide,
    mask_email_hides_local "alice@example.com".toList "bob@example.com".toList
      (by decide) (by decide) (by decide)⟩

/-- C3 counterexample: the engine-native expression
`CONCAT('*******@', SPLIT_PART(e, '@', 2))` and the host-language
`mask_email` disagree on `"a@b@c"` (SQL keeps only the second field
`"b"`, the Python function keeps the whole tail `"b@c"`), so the two
masking implementations are not equivalent on every input string. -/
theorem sql_mask_ne_mask_email :
    sql_mask "a@b@c".toList ≠ mask_email "a@b@c".toList ∧
      sql_mask "a@b@c".toList = "*******@b".toList ∧
      mask_email "a@b@c".toList = "*******@b@c".toList := by
  refine ⟨by decide, by decide, by decide⟩

/-- C3 (amended): the two masking implementations agree on every string
containing exactly one `'@'`; they differ on strings with no `'@'`
(where `SPLIT_PART` yields the empty second field) and on strings with
several `'@'` (where `SPLIT_PART` keeps only the second field). -/
theorem sql_mask_eq_mask_email_single_at (e : List Char)
    (h : e.count '@' = 1) : sql_mask e = mask_email e := by
  have hmem : '@' ∈ e := List.count_pos_iff.mp (by omega)
  rw [sql_mask, split_part_at_2_eq_domainPart h, mask_email_of_mem hmem]

theorem sql_mask_eq_mask_email_single_at_witness :
    "carlos91@gmail.com".toList.count '@' = 1 ∧
      sql_mask "carlos91@gmail.com".toList =
        mask_email "carlos91@gmail.com".toList :=
  ⟨by decide,
    sql_mask_eq_mask_email_single_at "carlos91@gmail.com".toList (by decide)⟩

/-- C7: flattening an input document whose `CompanyInfo` holds exactly
one company with `N` customers yields exactly `N` records, each carrying
the `CompanyID` of that document and the name of that company. -/
theorem flatten_single_company (doc : InputDoc) (ci : Company)
    (h : doc.companyInfo = [ci]) :
    ∃ rs, flatten_customers doc = some rs ∧
      rs.length = ci.customers.length ∧
      ∀ r ∈ rs, r.companyID = doc.companyID ∧ r.companyName = ci.name := by
  refine ⟨ci.customers.map (flat_record doc.companyID ci.name), ?_, ?_, ?_⟩
  · simp [flatten_customers, h]
  · simp
  · intro r hr
    obtain ⟨c, _, rfl⟩ := List.mem_map.mp hr
    exact ⟨rfl, rfl⟩

/-- The single-customer example document of the end-to-end scenario. -/
def acmeCustomer : Customer :=
  { name := "Carlos", email := "carlos91@gmail.com", phone := "555-0100",
    birth := "1991-04-02", placeOfBirth := "Lima", role := "Owner" }

def acmeCompany : Company := { name := "Acme", customers := [acmeCustomer] }

def acmeDoc : InputDoc := { companyID := 1, companyInfo := [acmeCompany] }

theorem flatten_single_company_witness :
    acmeDoc.companyInfo = [acmeCompany] ∧
      ∃ rs, flatten_customers acmeDoc = some rs ∧
        rs.length = acmeCompany.customers.length ∧
        ∀ r ∈ rs, r.companyID = acmeDoc.companyID ∧
          r.companyName = acmeCompany.name :=
  ⟨rfl, flatten_single_company acmeDoc acmeCompany rfl⟩

/-- The `customers_tabular` table (lines 101-117): `UNNEST(CompanyInfo,
recursive := true)` yields one row per element of `CompanyInfo` with
columns `Name` and `Customers`, and `UNNEST(Customers, recursive :=
true)` then yields one row per customer of each of these rows, carrying
the `CompanyID` of the document and the `Name` of the row, i.e. of the
own company of that customer.  This table — not the Python loop of
lines 69-86, which feeds only the console summary of line 88 — is what
`customers_secure_sql` and every exported artifact are built from
(lines 147-160 and 190-212). -/
def customers_tabular (doc : InputDoc) : List FlatRecord :=
  doc.companyInfo.flatMap fun ci =>
    ci.customers.map (flat_record doc.companyID ci.name)

/-- The customer of the second company of the two-company document. -/
def betaCustomer : Customer :=
  { name := "Dana", email := "dana@beta.io", phone := "555-0200",
    birth := "1985-07-15", placeOfBirth := "Quito", role := "Analyst" }

/-- A second company, used to probe the multi-company behaviour. -/
def betaCompany : Company := { name := "Beta", customers := [betaCustomer] }

def twoCompanyDoc : InputDoc :=
  { companyID := 7, companyInfo := [acmeCompany, betaCompany] }

/-- C10 counterexample: on a document with two companies the output
records — the rows of `customers_tabular`, from which every exported
artifact is built — are not exactly those derived from the customers of
the first company: the customer of the second company appears among
them, so later companies are not ignored.  (The Python loop of
lines 69-86 does read only element 0 of `CompanyInfo`, but it feeds
only the console summary of line 88, not the exports.) -/
theorem customers_tabular_keeps_later_companies :
    customers_tabular twoCompanyDoc ≠
        acmeCompany.customers.map
          (flat_record twoCompanyDoc.companyID acmeCompany.name) ∧
      flat_record twoCompanyDoc.companyID betaCompany.name betaCustomer ∈
        customers_tabular twoCompanyDoc :=
  ⟨by decide, by decide⟩

/-- C10 (amended): when `CompanyInfo` holds more than one company, only
the console-summary loop of lines 69-86 is restricted to the first
company; the output records of `customers_tabular` (lines 101-117),
from which the published artifacts are built, cover every company and
no error is raised: they are the records of the first company followed
by those of the remaining companies, each record tagged with the name
of its own company. -/
theorem flatten_loop_first_company_output_all (doc : InputDoc)
    (ci : Company) (rest : List Company) (h : doc.companyInfo = ci :: rest) :
    flatten_customers doc =
        some (ci.customers.map (flat_record doc.companyID ci.name)) ∧
      customers_tabular doc =
        ci.customers.map (flat_record doc.companyID ci.name) ++
          customers_tabular
            { companyID := doc.companyID, companyInfo := rest } := by
  constructor
  · simp [flatten_customers, h]
  · simp [customers_tabular, h]

theorem flatten_loop_first_company_output_all_witness :
    twoCompanyDoc.companyInfo = acmeCompany :: [betaCompany] ∧
      (flatten_customers twoCompanyDoc =
          some (acmeCompany.customers.map
            (flat_record twoCompanyDoc.companyID acmeCompany.name)) ∧
        customers_tabular twoCompanyDoc =
          acmeCompany.customers.map
              (flat_record twoCompanyDoc.companyID acmeCompany.name) ++
            customers_tabular
              { companyID := twoCompanyDoc.companyID,
                companyInfo := [betaCompany] }) :=
  ⟨rfl, flatten_loop_first_company_output_all twoCompanyDoc acmeCompany
    [betaCompany] rfl⟩

/-- C8: when the configured input path does not resolve to a file, the
run aborts with a file-not-found error and writes zero output files. -/
theorem missing_input_aborts_without_output (fs : List (String × InputDoc))
    (json_file_path output_dir : String)
    (h : fs.lookup json_file_path = none) :
    (flatten_and_transform_customer_data fs json_file_path output_dir).error =
        some PipelineError.fileNotFound ∧
      (flatten_and_transform_customer_data fs json_file_path
        output_dir).writtenFiles = [] := by
  simp [flatten_and_transform_customer_data, h]

theorem missing_input_aborts_without_output_witness :
    (([] : List (String × InputDoc)).lookup "../data/Customers.json" = none) ∧
      ((flatten_and_transform_customer_data [] "../data/Customers.json"
          "../data").error = some PipelineError.fileNotFound ∧
        (flatten_and_transform_customer_data [] "../data/Customers.json"
          "../data").writtenFiles = []) :=
  ⟨rfl, missing_input_aborts_without_output [] "../data/Customers.json"
    "../data" rfl⟩

/-- C1 counterexample: the claim that no exported artifact includes the
original email values is false — `Email_Original` is a column of the
exported `customers_secure_sql` table, hence of the CSV, the Parquet
file and the database table built from the Parquet file, and its value
in an exported row is the unmasked input email verbatim. -/
theorem email_Original_is_published :
    "Email_Original" ∈ csv_columns ∧ "Email_Original" ∈ parquet_columns ∧
      "Email_Original" ∈ duckdb_table_columns ∧
      (customers_secure_sql_row (flat_record 1 "Acme" acmeCustomer)).email_Original
        = "carlos91@gmail.com" :=
  ⟨by decide, by decide, by decide, rfl⟩

/-- C1 (amended): every published artifact (CSV, Parquet, database
table) carries the `Email_Masked` column but also the `Email_Original`
column, whose value in each row is the original unmasked email; the
exports publish the full `customers_secure_sql` table. -/
theorem published_artifacts_keep_original_email :
    "Email_Masked" ∈ csv_columns ∧ "Email_Original" ∈ csv_columns ∧
      "Email_Masked" ∈ parquet_columns ∧ "Email_Original" ∈ parquet_columns ∧
      "Email_Masked" ∈ duckdb_table_columns ∧
      "Email_Original" ∈ duckdb_table_columns ∧
      ∀ r : FlatRecord, (customers_secure_sql_row r).email_Original = r.email :=
  ⟨by decide, by decide, by decide, by decide, by decide, by decide,
    fun _ => rfl⟩
